import Mathlib

/-!
Verification of the payment-triggered account provisioning pipeline of the
modelweb backend.  The definitions below are a shallow embedding of the
TypeScript source: `PublicWebsiteController.processPaymentAndCreateUser`,
`handleFailedCheckout`, the subscription state synchronizer handlers
(`handleSubscriptionUpdated`, `handleSubscriptionDeleted`,
`handleInvoicePaymentSucceeded`, `handleInvoicePaymentFailed`),
`calculateNextBillingDate`, and `BillingService.getSubscriptionStatus` /
`cancelSubscription` / `reactivateSubscription`.  Database rows are modelled
as Lean structures, tables as lists, Prisma's interactive transaction as an
`Except`-valued body whose failure restores the initial state, and every
occurrence of `new Date()` as an explicit `now` parameter at day
granularity.
-/

namespace ModelWeb

/-- Calendar date as produced by the JavaScript `Date` triple constructor:
`year`, zero-based `month` (0 = January .. 11 = December) and one-based
`day`.  Time-of-day is not modelled; every use in the verified code needs
only day granularity. -/
structure JSDate where
  year : Int
  month : Nat
  day : Nat
deriving DecidableEq, Repr

/-- Gregorian leap-year test, as used by JavaScript `Date`. -/
def isLeap (y : Int) : Bool :=
  (y % 4 == 0 && y % 100 != 0) || y % 400 == 0

/-- Number of days of zero-based month `m` of year `y`. -/
def daysInMonth (y : Int) (m : Nat) : Nat :=
  if m = 1 then (if isLeap y then 29 else 28)
  else if m = 3 ∨ m = 5 ∨ m = 8 ∨ m = 10 then 30
  else 31

/-- Day-overflow normalization worker: while the day exceeds the current
month's length, subtract that length and move to the next month.  The
fuel argument only bounds the recursion; since each step strictly
decreases the day, a fuel of `d` always suffices. -/
def normalizeDateAux : Nat → Int → Nat → Nat → JSDate
  | 0, y, m, d => ⟨y, m, d⟩
  | fuel + 1, y, m, d =>
    if d ≤ daysInMonth y m then ⟨y, m, d⟩
    else
      normalizeDateAux fuel (if m = 11 then y + 1 else y)
        (if m = 11 then 0 else m + 1) (d - daysInMonth y m)

/-- Normalize a day-of-month that may exceed the month length, rolling
over into following months exactly as the JavaScript `Date` constructor
does (month `m` is assumed already in `0..11`, `d ≥ 1`). -/
def normalizeDate (y : Int) (m : Nat) (d : Nat) : JSDate :=
  normalizeDateAux d y m d

/-- The JavaScript expression `new Date(y, m, d)` for `d ≥ 1`: the month is
reduced modulo 12 (adjusting the year), then day overflow rolls into the
following months. -/
def mkJSDate (y : Int) (m : Int) (d : Nat) : JSDate :=
  normalizeDate (y + m.fdiv 12) (m.emod 12).toNat d

/-- The JavaScript mutation `date.setDate(0)`: move to the last day of the
preceding month. -/
def setDateZero (dt : JSDate) : JSDate :=
  if dt.month = 0 then ⟨dt.year - 1, 11, daysInMonth (dt.year - 1) 11⟩
  else ⟨dt.year, dt.month - 1, daysInMonth dt.year (dt.month - 1)⟩

/-- Embedding of `PublicWebsiteController.calculateNextBillingDate`.
Annual: `new Date(now.getFullYear() + 1, now.getMonth(), billingDay)`.
Monthly: `new Date(now.getFullYear(), now.getMonth() + 1, billingDay)`,
then `setDate(0)` when the resulting day-of-month differs from
`billingDay`. -/
def calculateNextBillingDate (now : JSDate) (billingDay : Nat)
    (isAnnual : Bool := false) : JSDate :=
  if isAnnual then
    mkJSDate (now.year + 1) (now.month : Int) billingDay
  else
    let nextDate := mkJSDate now.year ((now.month : Int) + 1) billingDay
    if nextDate.day ≠ billingDay then setDateZero nextDate else nextDate

/-- A well-formed calendar date: month in range and day within the month. -/
def JSDate.valid (dt : JSDate) : Prop :=
  dt.month ≤ 11 ∧ 1 ≤ dt.day ∧ dt.day ≤ daysInMonth dt.year dt.month

instance (dt : JSDate) : Decidable dt.valid := by
  unfold JSDate.valid; infer_instance

/-- Lexicographic strict order on dates; stands for the JavaScript
comparison `dateA > dateB` of the corresponding midnight instants. -/
def dateLt (a b : JSDate) : Bool :=
  a.year < b.year ||
    (a.year == b.year &&
      (a.month < b.month || (a.month == b.month && a.day < b.day)))

/-- Modelled from the spec (refinement reference only, not source code):
"same day-of-month, one period ahead, with end-of-month clamping" — the
target month is one month (or one year) ahead and the day is the billing
day clamped to that month's length. -/
def specNextBillingDate (now : JSDate) (billingDay : Nat)
    (isAnnual : Bool) : JSDate :=
  let ty : Int :=
    if isAnnual then now.year + 1
    else if now.month = 11 then now.year + 1 else now.year
  let tm : Nat :=
    if isAnnual then now.month
    else if now.month = 11 then 0 else now.month + 1
  ⟨ty, tm, min billingDay (daysInMonth ty tm)⟩

/-! ## Data model

Rows of the Prisma tables used by the pipeline (`tenants`, `applications`,
`users`, `profiles`, `billing`).  Generated string ids are modelled as
natural numbers drawn from a database-wide counter; monetary `REAL`
columns as rationals. -/

/-- Row of the `tenants` table. -/
structure Tenant where
  id : Nat
  name : String
  description : String
deriving DecidableEq, Repr

/-- Row of the `applications` table (fields the pipeline touches). -/
structure Application where
  id : Nat
  email : String
  firstName : String
  lastName : String
  about : String
  purposes : String
  customDesign : Bool
  paymentPlan : String
  status : String
  processed : Bool
  processedAt : Option JSDate
  userId : Option Nat
  stripeSessionId : Option String
  tempPassword : Option String
deriving DecidableEq, Repr

/-- Row of the `users` table (fields the pipeline touches). -/
structure User where
  id : Nat
  email : String
  password : String
  provider : String
  tenantId : Nat
deriving DecidableEq, Repr

/-- Row of the `profiles` table (fields the pipeline touches). -/
structure Profile where
  userId : Nat
  firstName : String
  lastName : String
  bio : String
deriving DecidableEq, Repr

/-- Row of the `billing` table. -/
structure Billing where
  id : Nat
  userId : Nat
  applicationId : Nat
  stripeCustomerId : Option String
  stripeSubscriptionId : Option String
  billingType : String
  billingDay : Option Nat
  nextBillingDate : Option JSDate
  amount : Rat
  initialAmount : Option Rat
  recurringAmount : Option Rat
  setupFee : Rat
  customDesignFee : Option Rat
  currency : String
  status : String
  cancelledAt : Option JSDate
deriving DecidableEq, Repr

/-- The database: one list per table plus the id-generation counter. -/
structure DB where
  nextId : Nat
  tenants : List Tenant
  applications : List Application
  users : List User
  profiles : List Profile
  billings : List Billing
deriving DecidableEq, Repr

/-- `prisma.application.findFirst` with a `stripeSessionId` filter. -/
def findAppBySession (db : DB) (sid : String) : Option Application :=
  db.applications.find? (fun a => a.stripeSessionId == some sid)

/-- `prisma.user.findUnique` on the unique `email` column. -/
def findUserByEmail (db : DB) (e : String) : Option User :=
  db.users.find? (fun u => u.email == e)

/-- `prisma.billing.findUnique` on the unique `stripeSubscriptionId`. -/
def findBillingBySub (db : DB) (subId : String) : Option Billing :=
  db.billings.find? (fun b => b.stripeSubscriptionId == some subId)

/-- `prisma.billing.findUnique` on the unique `userId`. -/
def findBillingByUser (db : DB) (uid : Nat) : Option Billing :=
  db.billings.find? (fun b => b.userId == uid)

/-- `prisma.application.update` on the primary key. -/
def updateApplicationRow (db : DB) (aid : Nat)
    (f : Application → Application) : DB :=
  { db with applications :=
      db.applications.map (fun a => if a.id = aid then f a else a) }

/-- `prisma.billing.update` on the primary key. -/
def updateBillingRow (db : DB) (bid : Nat) (f : Billing → Billing) : DB :=
  { db with billings :=
      db.billings.map (fun b => if b.id = bid then f b else b) }

/-- `prisma.billing.update` keyed on the unique `userId` column. -/
def updateBillingByUser (db : DB) (uid : Nat) (f : Billing → Billing) : DB :=
  { db with billings :=
      db.billings.map (fun b => if b.userId = uid then f b else b) }

/-- `getDefaultTenant`: `tenant.findFirst`, creating the default tenant
when the table is empty. -/
def getDefaultTenant (db : DB) : Tenant × DB :=
  match db.tenants with
  | t :: _ => (t, db)
  | [] =>
    let t : Tenant :=
      ⟨db.nextId, "Default Tenant", "Default tenant for new users"⟩
    (t, { db with nextId := db.nextId + 1, tenants := [t] })

/-! ## Account Provisioner -/

/-- The fields of a Stripe checkout session the pipeline reads, with the
customer / subscription / payment-intent references already in string-id
form. -/
structure StripeSession where
  id : String
  customer : Option String
  subscription : Option String
  amount_total : Option Int
  payment_intent : Option String
deriving DecidableEq, Repr

/-- Injected faults, one per write step of the provisioning transaction;
a set flag makes that step raise (modelling a constraint violation or
timeout at that point). -/
structure Faults where
  tenantFail : Bool
  userFail : Bool
  profileFail : Bool
  billingFail : Bool
  appUpdateFail : Bool
deriving DecidableEq, Repr

/-- No injected faults: every write step succeeds. -/
def noFaults : Faults := ⟨false, false, false, false, false⟩

/-- Ambient inputs of one `processPaymentAndCreateUser` call: the current
time, the temporary password generated (and hashed) before the
transaction, and the injected faults. -/
structure ProvisionEnv where
  now : JSDate
  tempPassword : String
  hashedPassword : String
  faults : Faults
deriving DecidableEq, Repr

/-- The object returned by `processPaymentAndCreateUser`; absent fields of
the three heterogeneous TypeScript return sites are `none` / `false`. -/
structure Outcome where
  success : Bool
  alreadyProcessed : Bool
  userExists : Bool
  userId : Option Nat
  email : Option String
  tempPassword : Option String
  firstName : Option String
  lastName : Option String
deriving DecidableEq, Repr

instance {ε α : Type} [DecidableEq ε] [DecidableEq α] :
    DecidableEq (Except ε α) := fun x y =>
  match x, y with
  | .ok a, .ok b =>
    if h : a = b then .isTrue (by rw [h]) else
      .isFalse (by intro hc; injection hc; contradiction)
  | .error a, .error b =>
    if h : a = b then .isTrue (by rw [h]) else
      .isFalse (by intro hc; injection hc; contradiction)
  | .ok _, .error _ => .isFalse (by intro hc; injection hc)
  | .error _, .ok _ => .isFalse (by intro hc; injection hc)

/-- Outcome of the `application.processed` idempotent short-circuit. -/
def alreadyProcessedOutcome (uid : Option Nat) : Outcome :=
  ⟨true, true, false, uid, none, none, none, none⟩

/-- Outcome of the existing-email path (no credentials issued). -/
def userExistsOutcome (uid : Nat) : Outcome :=
  ⟨true, false, true, some uid, none, none, none, none⟩

/-- Outcome of first-time provisioning, carrying the plain temporary
password exactly once. -/
def freshOutcome (uid : Nat) (email tempPw firstName lastName : String) :
    Outcome :=
  ⟨true, false, false, some uid, some email, some tempPw, some firstName,
    some lastName⟩

/-- Body of the provisioning transaction (`prisma.$transaction` callback in
`processPaymentAndCreateUser`): application lookup, processed
short-circuit, existing-email path, then tenant / user / profile / billing
creation and the final application update.  An error result models a
thrown exception inside the transaction. -/
def processTxBody (env : ProvisionEnv) (sessionId : String)
    (s : StripeSession) (db : DB) : Except String (DB × Outcome) :=
  match findAppBySession db sessionId with
  | none => .error "Application not found"
  | some app =>
    if app.processed then
      .ok (db, alreadyProcessedOutcome app.userId)
    else
      match findUserByEmail db app.email with
      | some existingUser =>
        let db1 := updateApplicationRow db app.id (fun a =>
          { a with userId := some existingUser.id, processed := true,
                   processedAt := some env.now, status := "completed" })
        .ok (db1, userExistsOutcome existingUser.id)
      | none =>
        if env.faults.tenantFail then .error "tenant step failed" else
        let td := getDefaultTenant db
        let tenant := td.1
        let db1 := td.2
        if env.faults.userFail then .error "user create failed" else
        let user : User :=
          ⟨db1.nextId, app.email, env.hashedPassword, "email", tenant.id⟩
        let db2 := { db1 with nextId := db1.nextId + 1,
                              users := db1.users ++ [user] }
        if env.faults.profileFail then .error "profile create failed" else
        let profile : Profile :=
          ⟨user.id, app.firstName, app.lastName, app.about⟩
        let db3 := { db2 with profiles := db2.profiles ++ [profile] }
        if env.faults.billingFail then .error "billing create failed" else
        let isAnnual := app.paymentPlan == "annual"
        let billingDay := env.now.day
        let nextBillingDate := calculateNextBillingDate env.now billingDay isAnnual
        let amountInPence : Int := s.amount_total.getD 0
        let totalAmount : Rat := (amountInPence : Rat) / 100
        let setupFee : Rat := 60
        let customDesignFee : Rat := if app.customDesign then 99 else 0
        let recurringAmount : Rat :=
          if isAnnual then (23988 : Rat) / 100 else (2499 : Rat) / 100
        let initialAmount : Rat := setupFee + recurringAmount + customDesignFee
        let billing : Billing :=
          { id := db3.nextId, userId := user.id, applicationId := app.id,
            stripeCustomerId := s.customer,
            stripeSubscriptionId := s.subscription,
            billingType := app.paymentPlan, billingDay := some billingDay,
            nextBillingDate := some nextBillingDate, amount := totalAmount,
            initialAmount := some initialAmount,
            recurringAmount := some recurringAmount, setupFee := setupFee,
            customDesignFee :=
              if customDesignFee > 0 then some customDesignFee else none,
            currency := "gbp", status := "active", cancelledAt := none }
        let db4 := { db3 with nextId := db3.nextId + 1,
                              billings := db3.billings ++ [billing] }
        if env.faults.appUpdateFail then .error "application update failed" else
        let db5 := updateApplicationRow db4 app.id (fun a =>
          { a with userId := some user.id, processed := true,
                   processedAt := some env.now, status := "completed",
                   tempPassword := some env.hashedPassword })
        .ok (db5, freshOutcome user.id app.email env.tempPassword
          app.firstName app.lastName)

/-- `processPaymentAndCreateUser`: runs the transaction body; a thrown
error rolls the database back to its pre-call state (Prisma interactive
transaction semantics) and is re-raised to the caller. -/
def processPaymentAndCreateUser (env : ProvisionEnv) (sessionId : String)
    (s : StripeSession) (db : DB) : DB × Except String Outcome :=
  match processTxBody env sessionId s db with
  | .ok (db1, out) => (db1, .ok out)
  | .error e => (db, .error e)

/-- Deliver the same `checkout_completed` event `n` times in sequence,
collecting the database after the last call and each call's result. -/
def processNTimes (env : ProvisionEnv) (sessionId : String)
    (s : StripeSession) : Nat → DB → DB × List (Except String Outcome)
  | 0, db => (db, [])
  | n + 1, db =>
    let r1 := processPaymentAndCreateUser env sessionId s db
    let rest := processNTimes env sessionId s n r1.1
    (rest.1, r1.2 :: rest.2)

/-! ## Compensation Handler -/

/-- `handleFailedCheckout`: no refund without a payment intent; no refund
when the session's Application is already `refunded`; otherwise one call to
`stripe.refunds.create` (its success is the `refundOk` parameter — a
throwing refund call is caught and skips the status update).  The returned
number counts refund API calls made by this invocation. -/
def handleFailedCheckout (refundOk : Bool) (s : StripeSession) (db : DB) :
    DB × Nat :=
  match s.payment_intent with
  | none => (db, 0)
  | some _ =>
    let app? := findAppBySession db s.id
    if (match app? with
        | some a => a.status == "refunded"
        | none => false) then
      (db, 0)
    else if refundOk then
      match app? with
      | some app =>
        (updateApplicationRow db app.id (fun a =>
          { a with status := "refunded" }), 1)
      | none => (db, 1)
    else
      (db, 1)

/-- Invoke `handleFailedCheckout` `n` times in sequence for the same
session, summing the refund API calls. -/
def compensateNTimes (refundOk : Bool) (s : StripeSession) :
    Nat → DB → DB × Nat
  | 0, db => (db, 0)
  | n + 1, db =>
    let r1 := handleFailedCheckout refundOk s db
    let rest := compensateNTimes refundOk s n r1.1
    (rest.1, r1.2 + rest.2)

/-! ## Subscription State Synchronizer -/

/-- The fields of a Stripe subscription object the synchronizer reads. -/
structure StripeSubscription where
  id : String
  status : String
  cancel_at_period_end : Bool
deriving DecidableEq, Repr

/-- `handleSubscriptionUpdated`: looks up Billing by the external
subscription reference (missing row is ignored) and updates `status` /
`cancelledAt` following the source's branch order: cancel-at-period-end
first (preserving an existing `cancelledAt`), then `past_due`, then the
hard `canceled` / `unpaid` states (overwriting `cancelledAt`
unconditionally), then the `active` reactivation; otherwise `status`
defaults to `active` keeping the previous `cancelledAt`. -/
def handleSubscriptionUpdated (now : JSDate) (sub : StripeSubscription)
    (db : DB) : DB :=
  match findBillingBySub db sub.id with
  | none => db
  | some billing =>
    let sc : String × Option JSDate :=
      if sub.cancel_at_period_end then
        ("cancelled",
          match billing.cancelledAt with
          | some t => some t
          | none => some now)
      else if sub.status == "past_due" then
        ("past_due", billing.cancelledAt)
      else if sub.status == "canceled" || sub.status == "unpaid" then
        ("cancelled", some now)
      else if sub.status == "active" then
        ("active", none)
      else
        ("active", billing.cancelledAt)
    updateBillingRow db billing.id (fun b =>
      { b with status := sc.1, cancelledAt := sc.2 })

/-- `handleSubscriptionDeleted`: unconditional cancellation. -/
def handleSubscriptionDeleted (now : JSDate) (sub : StripeSubscription)
    (db : DB) : DB :=
  match findBillingBySub db sub.id with
  | none => db
  | some billing =>
    updateBillingRow db billing.id (fun b =>
      { b with status := "cancelled", cancelledAt := some now })

/-- `handleInvoicePaymentSucceeded`: on a matching Billing, set
`status = active` and recompute `nextBillingDate` from the stored
`billingDay` — note the source calls `calculateNextBillingDate` without
the `isAnnual` flag, and a falsy (null or 0) `billingDay` yields a null
`nextBillingDate`. -/
def handleInvoicePaymentSucceeded (now : JSDate) (subId? : Option String)
    (db : DB) : DB :=
  match subId? with
  | none => db
  | some subId =>
    match findBillingBySub db subId with
    | none => db
    | some billing =>
      let nextBillingDate : Option JSDate :=
        match billing.billingDay with
        | some d => if d = 0 then none
                    else some (calculateNextBillingDate now d false)
        | none => none
      updateBillingRow db billing.id (fun b =>
        { b with status := "active", nextBillingDate := nextBillingDate })

/-- `handleInvoicePaymentFailed`: on a matching Billing, set
`status = past_due`. -/
def handleInvoicePaymentFailed (subId? : Option String) (db : DB) : DB :=
  match subId? with
  | none => db
  | some subId =>
    match findBillingBySub db subId with
    | none => db
    | some billing =>
      updateBillingRow db billing.id (fun b => { b with status := "past_due" })

/-! ## Billing service -/

/-- The object returned by `BillingService.getSubscriptionStatus`;
fields absent on the no-billing branch are `none` / `false`. -/
structure SubscriptionStatusResult where
  hasSubscription : Bool
  status : String
  billingType : Option String
  isActive : Bool
  isCancelled : Bool
  hasAccess : Bool
  accessUntil : Option JSDate
  canCancel : Bool
  canReactivate : Bool
deriving DecidableEq, Repr

/-- `BillingService.getSubscriptionStatus`: access is granted while the
subscription is `active`, or while it is `cancelled` with a
`nextBillingDate` still strictly in the future. -/
def getSubscriptionStatus (now : JSDate) (db : DB) (uid : Nat) :
    SubscriptionStatusResult :=
  match findBillingByUser db uid with
  | none =>
    { hasSubscription := false, status := "none", billingType := none,
      isActive := false, isCancelled := false, hasAccess := false,
      accessUntil := none, canCancel := false, canReactivate := false }
  | some billing =>
    let hasAccess := billing.status == "active" ||
      (billing.status == "cancelled" &&
        (match billing.nextBillingDate with
         | some d => dateLt now d
         | none => false))
    { hasSubscription := true, status := billing.status,
      billingType := some billing.billingType,
      isActive := billing.status == "active",
      isCancelled := billing.status == "cancelled",
      hasAccess := hasAccess,
      accessUntil :=
        if billing.status == "cancelled" then billing.nextBillingDate
        else none,
      canCancel :=
        (billing.billingType == "monthly" || billing.billingType == "annual")
          && billing.status == "active",
      canReactivate :=
        (billing.billingType == "monthly" || billing.billingType == "annual")
          && billing.status == "cancelled" }

/-- Modelled from the spec (refinement reference only, not source code):
"access is considered granted if `status == active`, OR
(`status == cancelled` AND `nextBillingDate` is in the future)". -/
def specHasAccess (now : JSDate) (b : Billing) : Prop :=
  b.status = "active" ∨
    (b.status = "cancelled" ∧
      ∃ T, b.nextBillingDate = some T ∧ dateLt now T = true)

/-- `BillingService.cancelSubscription`: rejects a missing or already
cancelled Billing; a failing Stripe `cancel_at_period_end` update (when a
subscription reference exists) aborts before any database write; otherwise
sets `status = cancelled`, `cancelledAt = now`, keeping
`nextBillingDate`. -/
def cancelSubscription (now : JSDate) (stripeOk : Bool) (uid : Nat)
    (db : DB) : DB × Except String Unit :=
  match findBillingByUser db uid with
  | none => (db, .error "No billing information found")
  | some billing =>
    if billing.status == "cancelled" then
      (db, .error "Subscription is already cancelled")
    else if billing.stripeSubscriptionId.isSome && !stripeOk then
      (db, .error "Failed to cancel subscription in Stripe")
    else
      (updateBillingByUser db uid (fun b =>
        { b with status := "cancelled", cancelledAt := some now }), .ok ())

/-- `BillingService.reactivateSubscription`: rejects a missing or
non-cancelled Billing; a failing Stripe update aborts before any database
write; otherwise sets `status = active`, `cancelledAt = null`. -/
def reactivateSubscription (stripeOk : Bool) (uid : Nat) (db : DB) :
    DB × Except String Unit :=
  match findBillingByUser db uid with
  | none => (db, .error "No billing information found")
  | some billing =>
    if billing.status != "cancelled" then
      (db, .error "Subscription is not cancelled")
    else if billing.stripeSubscriptionId.isSome && !stripeOk then
      (db, .error "Failed to reactivate subscription in Stripe")
    else
      (updateBillingByUser db uid (fun b =>
        { b with status := "active", cancelledAt := none }), .ok ())

/-! ## The operations that create or mutate Billing rows -/

/-- Every operation of the repository that creates or mutates a `Billing`
row: provisioning, the four synchronizer handlers, and the user-initiated
cancel / reactivate actions. -/
inductive BillingOp where
  | provision (env : ProvisionEnv) (sessionId : String) (s : StripeSession)
  | subUpdated (now : JSDate) (sub : StripeSubscription)
  | subDeleted (now : JSDate) (sub : StripeSubscription)
  | invoicePaid (now : JSDate) (subId? : Option String)
  | invoiceFailed (subId? : Option String)
  | cancel (now : JSDate) (stripeOk : Bool) (uid : Nat)
  | reactivate (stripeOk : Bool) (uid : Nat)

/-- The database after applying one Billing-mutating operation. -/
def applyOp : BillingOp → DB → DB
  | .provision env sessionId s, db =>
    (processPaymentAndCreateUser env sessionId s db).1
  | .subUpdated now sub, db => handleSubscriptionUpdated now sub db
  | .subDeleted now sub, db => handleSubscriptionDeleted now sub db
  | .invoicePaid now subId?, db => handleInvoicePaymentSucceeded now subId? db
  | .invoiceFailed subId?, db => handleInvoicePaymentFailed subId? db
  | .cancel now stripeOk uid, db => (cancelSubscription now stripeOk uid db).1
  | .reactivate stripeOk uid, db => (reactivateSubscription stripeOk uid db).1

/-- The spec's Billing invariant: `status == cancelled` implies
`cancelledAt != null`. -/
def billingInv (b : Billing) : Prop :=
  b.status = "cancelled" → b.cancelledAt ≠ none

/-- The invariant holds of every Billing row of the database. -/
def dbInv (db : DB) : Prop := ∀ b ∈ db.billings, billingInv b

instance (b : Billing) : Decidable (billingInv b) := by
  unfold billingInv; infer_instance

instance (db : DB) : Decidable (dbInv db) := by
  unfold dbInv; exact List.decidableBAll _ _

/-! ## Helper lemmas -/

theorem daysInMonth_ge (y : Int) (m : Nat) : 28 ≤ daysInMonth y m := by
  unfold daysInMonth
  split
  · split <;> omega
  · split <;> omega

theorem daysInMonth_eleven (y : Int) : daysInMonth y 11 = 31 := by
  simp [daysInMonth]

theorem normalizeDateAux_of_le (fuel : Nat) (y : Int) (m d : Nat)
    (h : d ≤ daysInMonth y m) : normalizeDateAux fuel y m d = ⟨y, m, d⟩ := by
  cases fuel <;> simp [normalizeDateAux, h]

theorem normalizeDate_of_le (y : Int) (m d : Nat)
    (h : d ≤ daysInMonth y m) : normalizeDate y m d = ⟨y, m, d⟩ :=
  normalizeDateAux_of_le d y m d h

theorem normalizeDate_step (y : Int) (m d : Nat)
    (h1 : daysInMonth y m < d)
    (h2 : d - daysInMonth y m ≤
      daysInMonth (if m = 11 then y + 1 else y) (if m = 11 then 0 else m + 1)) :
    normalizeDate y m d =
      ⟨if m = 11 then y + 1 else y, if m = 11 then 0 else m + 1,
        d - daysInMonth y m⟩ := by
  have h28 := daysInMonth_ge y m
  obtain ⟨k, rfl⟩ : ∃ k, d = k + 1 := ⟨d - 1, by omega⟩
  unfold normalizeDate normalizeDateAux
  rw [if_neg (by omega)]
  exact normalizeDateAux_of_le k _ _ _ h2

theorem find?_map_pres {α : Type} (p : α → Bool) (g : α → α)
    (hp : ∀ a, p (g a) = p a) :
    ∀ l : List α, (l.map g).find? p = (l.find? p).map g := by
  intro l
  induction l with
  | nil => rfl
  | cons a l ih =>
    by_cases h : p a = true
    · rw [List.map_cons, List.find?_cons_of_pos _ (by rw [hp]; exact h),
        List.find?_cons_of_pos _ h]
      rfl
    · have h' : ¬ p (g a) = true := by rw [hp]; exact h
      rw [List.map_cons, List.find?_cons_of_neg _ h',
        List.find?_cons_of_neg _ h, ih]

/-! ## C2 — transactional rollback -/

/-- C2: whenever `processPaymentAndCreateUser` reports an error — the
application lookup failed, or a fault (constraint violation / timeout) was
injected at any write step of the transaction, including after User
creation but before Billing creation completed — the database is exactly
its pre-call state: no partial User, Profile or Billing row remains and
the Application row is unchanged. -/
theorem provisioning_failure_rolls_back (env : ProvisionEnv)
    (sid : String) (s : StripeSession) (db db' : DB) (e : String)
    (h : processPaymentAndCreateUser env sid s db = (db', .error e)) :
    db' = db := by
  unfold processPaymentAndCreateUser at h
  cases htx : processTxBody env sid s db with
  | ok val =>
    rw [htx] at h
    simp at h
  | error err =>
    rw [htx] at h
    injection h with h1 h2
    exact h1.symm

/-- C2 witness: a billing-creation fault injected after User creation in a
concrete one-application database makes the call fail, and the theorem
yields the unchanged database. -/
theorem provisioning_failure_rolls_back_witness :
    processPaymentAndCreateUser
      ⟨⟨2025, 0, 10⟩, "tmpPw1", "hashPw1", ⟨false, false, false, true, false⟩⟩
      "cs_w2"
      ⟨"cs_w2", some "cus_w2", some "sub_w2", some 8499, some "pi_w2"⟩
      ⟨2, [⟨0, "T", "D"⟩],
        [⟨1, "w2@example.com", "Ada", "Lovelace", "about", "[]", false,
          "monthly", "pending", false, none, none, some "cs_w2", none⟩],
        [], [], []⟩ =
      (⟨2, [⟨0, "T", "D"⟩],
        [⟨1, "w2@example.com", "Ada", "Lovelace", "about", "[]", false,
          "monthly", "pending", false, none, none, some "cs_w2", none⟩],
        [], [], []⟩, .error "billing create failed") ∧
    (⟨2, [⟨0, "T", "D"⟩],
        [⟨1, "w2@example.com", "Ada", "Lovelace", "about", "[]", false,
          "monthly", "pending", false, none, none, some "cs_w2", none⟩],
        [], [], []⟩ : DB) =
      ⟨2, [⟨0, "T", "D"⟩],
        [⟨1, "w2@example.com", "Ada", "Lovelace", "about", "[]", false,
          "monthly", "pending", false, none, none, some "cs_w2", none⟩],
        [], [], []⟩ := by
  refine ⟨by decide, ?_⟩
  exact provisioning_failure_rolls_back
    ⟨⟨2025, 0, 10⟩, "tmpPw1", "hashPw1", ⟨false, false, false, true, false⟩⟩
    "cs_w2"
    ⟨"cs_w2", some "cus_w2", some "sub_w2", some 8499, some "pi_w2"⟩
    ⟨2, [⟨0, "T", "D"⟩],
      [⟨1, "w2@example.com", "Ada", "Lovelace", "about", "[]", false,
        "monthly", "pending", false, none, none, some "cs_w2", none⟩],
      [], [], []⟩
    ⟨2, [⟨0, "T", "D"⟩],
      [⟨1, "w2@example.com", "Ada", "Lovelace", "about", "[]", false,
        "monthly", "pending", false, none, none, some "cs_w2", none⟩],
      [], [], []⟩
    "billing create failed" (by decide)

/-! ## C5 — billing-day clamping -/

theorem month_fdiv_zero (m : Nat) (h : m ≤ 11) :
    (m : Int).fdiv 12 = 0 ∧ ((m : Int).emod 12).toNat = m := by
  interval_cases m <;> exact ⟨by decide, by decide⟩

theorem month_succ_norm (m : Nat) (h : m ≤ 11) :
    ((m : Int) + 1).fdiv 12 = (if m = 11 then 1 else 0) ∧
    (((m : Int) + 1).emod 12).toNat = (if m = 11 then 0 else m + 1) := by
  interval_cases m <;> exact ⟨by decide, by decide⟩

theorem mkJSDate_same_month (y : Int) (m : Nat) (h : m ≤ 11) (d : Nat) :
    mkJSDate y (m : Int) d = normalizeDate y m d := by
  unfold mkJSDate
  rw [(month_fdiv_zero m h).1, (month_fdiv_zero m h).2, add_zero]

theorem mkJSDate_next_month (y : Int) (m : Nat) (h : m ≤ 11) (d : Nat) :
    mkJSDate y ((m : Int) + 1) d =
      normalizeDate (if m = 11 then y + 1 else y)
        (if m = 11 then 0 else m + 1) d := by
  unfold mkJSDate
  rw [(month_succ_norm m h).1, (month_succ_norm m h).2]
  by_cases hm : m = 11 <;> simp [hm]

/-- C5 counterexample: provisioning an annual plan on 2024-02-29 (a valid
date, billing day 29 = the provisioning day-of-month) stores
`nextBillingDate` 2025-03-01 — the annual branch does not clamp to the
last day of February 2025, which the claimed clamping rule
(`specNextBillingDate`) would give as 2025-02-28. -/
theorem nextBillingDate_annual_clamp_cex :
    ((processPaymentAndCreateUser ⟨⟨2024, 1, 29⟩, "tp", "hp", noFaults⟩
        "cs_c5" ⟨"cs_c5", some "cus_c5", some "sub_c5", some 29988, some "pi_c5"⟩
        ⟨2, [⟨0, "T", "D"⟩],
          [⟨1, "c5@example.com", "Ada", "Lovelace", "about", "[]", false,
            "annual", "pending", false, none, none, some "cs_c5", none⟩],
          [], [], []⟩).1.billings.map Billing.nextBillingDate)
      = [some ⟨2025, 2, 1⟩] ∧
    specNextBillingDate ⟨2024, 1, 29⟩ 29 true = ⟨2025, 1, 28⟩ ∧
    (⟨2025, 2, 1⟩ : JSDate) ≠ ⟨2025, 1, 28⟩ := by decide

/-- C5 (amended): for monthly provisioning the claim holds as stated —
`nextBillingDate` is the same day-of-month one month ahead with
end-of-month clamping (billing day 31 landing in February yields the last
day of February); for annual provisioning the code uses the same calendar
day one year ahead and this agrees with the clamping rule exactly when
that day exists in the target month (which fails only for a Feb-29
provisioning date, where the date rolls over instead of clamping). -/
theorem nextBillingDate_clamping (now : JSDate) (d : Nat)
    (hv : now.valid) (hd1 : 1 ≤ d) (hd31 : d ≤ 31) :
    calculateNextBillingDate now d false = specNextBillingDate now d false ∧
    (d ≤ daysInMonth (now.year + 1) now.month →
      calculateNextBillingDate now d true = specNextBillingDate now d true) := by
  obtain ⟨hm, hv1, hv2⟩ := hv
  constructor
  · unfold calculateNextBillingDate
    simp only [Bool.false_eq_true, if_false]
    rw [mkJSDate_next_month now.year now.month hm d]
    by_cases hm11 : now.month = 11
    · -- December: the next month is January, which has 31 days,
      -- so the billing day always fits and no clamping is needed
      have h31 : daysInMonth (now.year + 1) 0 = 31 := by simp [daysInMonth]
      rw [hm11]
      have e1 : (if (11 : Nat) = 11 then now.year + 1 else now.year) =
          now.year + 1 := if_pos rfl
      have e2 : (if (11 : Nat) = 11 then 0 else 11 + 1) = 0 := if_pos rfl
      rw [e1, e2, normalizeDate_of_le _ _ _ (by rw [h31]; exact hd31)]
      simp only [ne_eq, not_true_eq_false, if_false]
      unfold specNextBillingDate
      simp only [Bool.false_eq_true, if_false, if_pos hm11]
      rw [h31, min_eq_left hd31]
    · rw [if_neg hm11, if_neg hm11]
      by_cases hle : d ≤ daysInMonth now.year (now.month + 1)
      · rw [normalizeDate_of_le _ _ _ hle]
        simp only [ne_eq, not_true_eq_false, if_false]
        unfold specNextBillingDate
        simp only [Bool.false_eq_true, if_false, if_neg hm11,
          min_eq_left hle]
      · push_neg at hle
        have h28 := daysInMonth_ge now.year (now.month + 1)
        by_cases hm10 : now.month + 1 = 11
        · -- next month is December: 31 days, overflow impossible
          exfalso
          rw [hm10, daysInMonth_eleven] at hle
          omega
        · have h28b := daysInMonth_ge now.year (now.month + 1 + 1)
          rw [normalizeDate_step _ _ _ hle
            (by rw [if_neg hm10, if_neg hm10]; omega)]
          rw [if_neg hm10, if_neg hm10]
          have hne : d - daysInMonth now.year (now.month + 1) ≠ d := by
            omega
          simp only [ne_eq, hne, not_false_eq_true, if_true]
          unfold setDateZero
          simp only [Nat.succ_ne_zero, if_false, Nat.add_sub_cancel]
          unfold specNextBillingDate
          simp only [Bool.false_eq_true, if_false, if_neg hm11,
            min_eq_right (le_of_lt hle)]
  · intro hda
    unfold calculateNextBillingDate
    simp only [if_true]
    rw [mkJSDate_same_month (now.year + 1) now.month hm d,
      normalizeDate_of_le _ _ _ hda]
    unfold specNextBillingDate
    simp [min_eq_left hda]

/-- C5 amended-claim witness: provisioning on 2025-01-31 with billing day
31; the monthly target (February 2025) has 28 days and the result clamps
to 2025-02-28, matching the clamping rule. -/
theorem nextBillingDate_clamping_witness :
    (⟨2025, 0, 31⟩ : JSDate).valid ∧ 1 ≤ 31 ∧ 31 ≤ 31 ∧
    calculateNextBillingDate ⟨2025, 0, 31⟩ 31 false =
      specNextBillingDate ⟨2025, 0, 31⟩ 31 false :=
  ⟨by decide, by decide, by decide,
    (nextBillingDate_clamping ⟨2025, 0, 31⟩ 31 (by decide) (by decide)
      (by decide)).1⟩

/-! ## C6 — invoice_paid recomputation -/

/-- C6: evidence of the divergence — for an annual Billing (billingDay 15,
`nextBillingDate` 2026-06-15 as provisioning stored it), a delivered
`invoice_paid` on 2025-06-10 sets status `active` but overwrites
`nextBillingDate` with 2025-07-15, one *month* ahead, because the source
calls `calculateNextBillingDate(billing.billingDay)` without the
`isAnnual` flag; one billing period (a year) ahead would be 2026-06-15,
as the second conjunct shows. -/
theorem invoicePaid_annual_advances_one_month :
    (handleInvoicePaymentSucceeded ⟨2025, 5, 10⟩ (some "sub_c6")
        ⟨10, [], [], [], [],
          [⟨5, 2, 1, some "cus_c6", some "sub_c6", "annual", some 15,
            some ⟨2026, 5, 15⟩, 0, none, none, 60, none, "gbp", "active",
            none⟩]⟩).billings
      = [⟨5, 2, 1, some "cus_c6", some "sub_c6", "annual", some 15,
          some ⟨2025, 6, 15⟩, 0, none, none, 60, none, "gbp", "active",
          none⟩] ∧
    calculateNextBillingDate ⟨2025, 5, 10⟩ 15 true = ⟨2026, 5, 15⟩ := by
  decide

/-! ## C7 / C10 — subscription_updated transitions -/

/-- C7: a `subscription_updated` with the cancel-at-period-end flag set,
matching an existing Billing, sets that row's status to `cancelled`, sets
`cancelledAt` to the current time only when it was previously null
(an earlier cancellation time is kept), and changes nothing else: every
other field of the row, every other Billing row, and every other table are
untouched — in particular `nextBillingDate` is left as the access-expiry
marker. -/
theorem subUpdated_cancel_at_period_end_frame (now : JSDate)
    (sub : StripeSubscription) (db : DB) (b : Billing)
    (hf : findBillingBySub db sub.id = some b)
    (hflag : sub.cancel_at_period_end = true) :
    (handleSubscriptionUpdated now sub db).nextId = db.nextId ∧
    (handleSubscriptionUpdated now sub db).tenants = db.tenants ∧
    (handleSubscriptionUpdated now sub db).applications = db.applications ∧
    (handleSubscriptionUpdated now sub db).users = db.users ∧
    (handleSubscriptionUpdated now sub db).profiles = db.profiles ∧
    (handleSubscriptionUpdated now sub db).billings =
      db.billings.map (fun x =>
        if x.id = b.id then
          { x with status := "cancelled",
                   cancelledAt :=
                     match b.cancelledAt with
                     | some t => some t
                     | none => some now }
        else x) := by
  unfold handleSubscriptionUpdated
  rw [hf]
  simp [hflag, updateBillingRow]

/-- C7 witness: a cancel-at-period-end update of a Billing whose
`cancelledAt` was already 2024-01-01 keeps that earlier time and leaves
`nextBillingDate` 2025-05-04 in place. -/
theorem subUpdated_cancel_at_period_end_frame_witness :
    (handleSubscriptionUpdated ⟨2025, 3, 4⟩ ⟨"sub_w7", "active", true⟩
        ⟨10, [], [], [], [],
          [⟨7, 3, 2, some "cus_w7", some "sub_w7", "monthly", some 4,
            some ⟨2025, 4, 4⟩, 0, none, none, 60, none, "gbp", "cancelled",
            some ⟨2024, 0, 1⟩⟩]⟩).billings
      = [⟨7, 3, 2, some "cus_w7", some "sub_w7", "monthly", some 4,
          some ⟨2025, 4, 4⟩, 0, none, none, 60, none, "gbp", "cancelled",
          some ⟨2024, 0, 1⟩⟩] := by
  rw [(subUpdated_cancel_at_period_end_frame ⟨2025, 3, 4⟩
    ⟨"sub_w7", "active", true⟩
    ⟨10, [], [], [], [],
      [⟨7, 3, 2, some "cus_w7", some "sub_w7", "monthly", some 4,
        some ⟨2025, 4, 4⟩, 0, none, none, 60, none, "gbp", "cancelled",
        some ⟨2024, 0, 1⟩⟩]⟩
    ⟨7, 3, 2, some "cus_w7", some "sub_w7", "monthly", some 4,
      some ⟨2025, 4, 4⟩, 0, none, none, 60, none, "gbp", "cancelled",
      some ⟨2024, 0, 1⟩⟩ (by decide) rfl).2.2.2.2.2]
  decide

/-- C10: a `subscription_updated` without the cancel-at-period-end flag
whose underlying status is `canceled` or `unpaid` sets the matching
Billing's status to `cancelled` and overwrites `cancelledAt` with the
current time unconditionally — the update function ignores the row's
previous `cancelledAt`. -/
theorem subUpdated_hard_cancel_overwrites (now : JSDate)
    (sub : StripeSubscription) (db : DB) (b : Billing)
    (hf : findBillingBySub db sub.id = some b)
    (hflag : sub.cancel_at_period_end = false)
    (hst : sub.status = "canceled" ∨ sub.status = "unpaid") :
    handleSubscriptionUpdated now sub db =
      updateBillingRow db b.id (fun x =>
        { x with status := "cancelled", cancelledAt := some now }) := by
  unfold handleSubscriptionUpdated
  rw [hf]
  have h1 : (sub.status == "past_due") = false := by
    rcases hst with h | h <;> simp [h]
  have h2 : (sub.status == "canceled" || sub.status == "unpaid") = true := by
    rcases hst with h | h <;> simp [h]
  simp [hflag, h1, h2]

/-- C10 witness: a hard `canceled` update overwrites an earlier
`cancelledAt` of 2024-01-01 with the current time 2025-04-05. -/
theorem subUpdated_hard_cancel_overwrites_witness :
    (handleSubscriptionUpdated ⟨2025, 3, 5⟩ ⟨"sub_wX", "canceled", false⟩
        ⟨10, [], [], [], [],
          [⟨7, 3, 2, some "cus_wX", some "sub_wX", "monthly", some 4,
            some ⟨2025, 4, 4⟩, 0, none, none, 60, none, "gbp", "cancelled",
            some ⟨2024, 0, 1⟩⟩]⟩).billings
      = [⟨7, 3, 2, some "cus_wX", some "sub_wX", "monthly", some 4,
          some ⟨2025, 4, 4⟩, 0, none, none, 60, none, "gbp", "cancelled",
          some ⟨2025, 3, 5⟩⟩] := by
  rw [subUpdated_hard_cancel_overwrites ⟨2025, 3, 5⟩
    ⟨"sub_wX", "canceled", false⟩
    ⟨10, [], [], [], [],
      [⟨7, 3, 2, some "cus_wX", some "sub_wX", "monthly", some 4,
        some ⟨2025, 4, 4⟩, 0, none, none, 60, none, "gbp", "cancelled",
        some ⟨2024, 0, 1⟩⟩]⟩
    ⟨7, 3, 2, some "cus_wX", some "sub_wX", "monthly", some 4,
      some ⟨2025, 4, 4⟩, 0, none, none, 60, none, "gbp", "cancelled",
      some ⟨2024, 0, 1⟩⟩ (by decide) rfl (Or.inl rfl)]
  decide

/-! ## C8 — access window of a cancelled subscription -/

/-- C8: for a user with a Billing row, `getSubscriptionStatus` reports
`hasAccess` exactly when the status is `active`, or the status is
`cancelled` with `nextBillingDate` strictly in the future
(`specHasAccess`); the reported status is the stored status (so it stays
`cancelled` throughout the access window), and for a cancelled Billing
with `nextBillingDate = T` the access flag equals `now < T` — true
strictly before `T`, false at and strictly after `T`. -/
theorem hasAccess_characterization (now : JSDate) (db : DB) (uid : Nat)
    (b : Billing) (hb : findBillingByUser db uid = some b) :
    ((getSubscriptionStatus now db uid).hasAccess = true ↔
      specHasAccess now b) ∧
    (getSubscriptionStatus now db uid).status = b.status ∧
    (∀ T, b.status = "cancelled" → b.nextBillingDate = some T →
      (getSubscriptionStatus now db uid).hasAccess = dateLt now T) := by
  unfold getSubscriptionStatus
  rw [hb]
  refine ⟨?_, rfl, ?_⟩
  · unfold specHasAccess
    cases hnb : b.nextBillingDate with
    | none => simp [hnb, beq_iff_eq]
    | some T => simp [hnb, beq_iff_eq]
  · intro T hst hnb
    have hna : (("cancelled" : String) == "active") = false := by decide
    have hnc : (("cancelled" : String) == "cancelled") = true := by decide
    simp [hst, hnb, hna, hnc]

/-- C8 witness: a cancelled Billing with `nextBillingDate` 2025-07-01
still grants access on 2025-01-01 (strictly before the expiry marker),
via the third conjunct of the characterization. -/
theorem hasAccess_characterization_witness :
    (getSubscriptionStatus ⟨2025, 0, 1⟩
        ⟨10, [], [], [], [],
          [⟨7, 3, 2, some "cus_w8", some "sub_w8", "monthly", some 1,
            some ⟨2025, 6, 1⟩, 0, none, none, 60, none, "gbp", "cancelled",
            some ⟨2024, 11, 20⟩⟩]⟩ 3).hasAccess = true := by
  rw [(hasAccess_characterization ⟨2025, 0, 1⟩
    ⟨10, [], [], [], [],
      [⟨7, 3, 2, some "cus_w8", some "sub_w8", "monthly", some 1,
        some ⟨2025, 6, 1⟩, 0, none, none, 60, none, "gbp", "cancelled",
        some ⟨2024, 11, 20⟩⟩]⟩ 3
    ⟨7, 3, 2, some "cus_w8", some "sub_w8", "monthly", some 1,
      some ⟨2025, 6, 1⟩, 0, none, none, 60, none, "gbp", "cancelled",
      some ⟨2024, 11, 20⟩⟩ (by decide)).2.2 ⟨2025, 6, 1⟩ rfl rfl]
  decide

/-! ## C9 — the cancelled ⇒ cancelledAt invariant -/

theorem dbInv_updateBillingRow (db : DB) (bid : Nat) (f : Billing → Billing)
    (h : dbInv db) (hf : ∀ b, billingInv b → billingInv (f b)) :
    dbInv (updateBillingRow db bid f) := by
  intro b hb
  unfold updateBillingRow at hb
  simp only [List.mem_map] at hb
  obtain ⟨a, ha, rfl⟩ := hb
  split
  · exact hf a (h a ha)
  · exact h a ha

theorem dbInv_updateBillingByUser (db : DB) (uid : Nat)
    (f : Billing → Billing) (h : dbInv db)
    (hf : ∀ b, billingInv b → billingInv (f b)) :
    dbInv (updateBillingByUser db uid f) := by
  intro b hb
  unfold updateBillingByUser at hb
  simp only [List.mem_map] at hb
  obtain ⟨a, ha, rfl⟩ := hb
  split
  · exact hf a (h a ha)
  · exact h a ha

theorem processTxBody_billings (env : ProvisionEnv) (sid : String)
    (s : StripeSession) (db db1 : DB) (out : Outcome)
    (h : processTxBody env sid s db = .ok (db1, out)) :
    db1.billings = db.billings ∨
      ∃ nb, db1.billings = db.billings ++ [nb] ∧ nb.status = "active" := by
  obtain ⟨nid, tens, apps, us, ps, bs⟩ := db
  cases tens <;>
  · unfold processTxBody at h
    dsimp only at h
    split at h
    · simp at h
    · split at h
      · injection h with h2
        injection h2 with h1 h3
        left; rw [← h1]
      · split at h
        · injection h with h2
          injection h2 with h1 h3
          left; rw [← h1]; rfl
        · split at h
          · simp at h
          · split at h
            · simp at h
            · split at h
              · simp at h
              · split at h
                · simp at h
                · split at h
                  · simp at h
                  · injection h with h2
                    injection h2 with h1 h3
                    right
                    rw [← h1]
                    exact ⟨_, rfl, rfl⟩


theorem provision_preserves_inv (env : ProvisionEnv) (sid : String)
    (s : StripeSession) (db : DB) (h : dbInv db) :
    dbInv (processPaymentAndCreateUser env sid s db).1 := by
  unfold processPaymentAndCreateUser
  cases htx : processTxBody env sid s db with
  | error e => exact h
  | ok val =>
    have hb := processTxBody_billings env sid s db val.1 val.2 (by rw [htx])
    rcases hb with hb | ⟨nb, hb, hnb⟩
    · intro b hm; rw [hb] at hm; exact h b hm
    · intro b hm
      rw [hb] at hm
      rcases List.mem_append.mp hm with hm | hm
      · exact h b hm
      · rw [List.mem_singleton] at hm
        subst hm
        intro hc
        rw [hnb] at hc
        exact absurd hc (by decide)

theorem subUpdated_preserves_inv (now : JSDate) (sub : StripeSubscription)
    (db : DB) (h : dbInv db) :
    dbInv (handleSubscriptionUpdated now sub db) := by
  unfold handleSubscriptionUpdated
  cases hf : findBillingBySub db sub.id with
  | none => exact h
  | some billing =>
    cases hcf : sub.cancel_at_period_end with
    | true =>
      simp only [hcf, if_true]
      apply dbInv_updateBillingRow db billing.id _ h
      intro x _
      intro _
      cases billing.cancelledAt <;> simp
    | false =>
      simp only [hcf, Bool.false_eq_true, if_false]
      cases hpd : sub.status == "past_due" with
      | true =>
        simp only [hpd, if_true]
        apply dbInv_updateBillingRow db billing.id _ h
        intro x _
        intro hc
        exact absurd (show ("past_due" : String) = "cancelled" from hc)
          (by decide)
      | false =>
        simp only [hpd, Bool.false_eq_true, if_false]
        cases hcu : sub.status == "canceled" || sub.status == "unpaid" with
        | true =>
          simp only [hcu, if_true]
          apply dbInv_updateBillingRow db billing.id _ h
          intro x _
          intro _
          simp
        | false =>
          simp only [hcu, Bool.false_eq_true, if_false]
          cases hac : sub.status == "active" with
          | true =>
            simp only [hac, if_true]
            apply dbInv_updateBillingRow db billing.id _ h
            intro x _
            intro hc
            exact absurd (show ("active" : String) = "cancelled" from hc)
              (by decide)
          | false =>
            simp only [hac, Bool.false_eq_true, if_false]
            apply dbInv_updateBillingRow db billing.id _ h
            intro x _
            intro hc
            exact absurd (show ("active" : String) = "cancelled" from hc)
              (by decide)

theorem subDeleted_preserves_inv (now : JSDate) (sub : StripeSubscription)
    (db : DB) (h : dbInv db) :
    dbInv (handleSubscriptionDeleted now sub db) := by
  unfold handleSubscriptionDeleted
  cases hf : findBillingBySub db sub.id with
  | none => exact h
  | some billing =>
    apply dbInv_updateBillingRow db billing.id _ h
    intro x _
    intro _
    simp

theorem invoicePaid_preserves_inv (now : JSDate) (subId? : Option String)
    (db : DB) (h : dbInv db) :
    dbInv (handleInvoicePaymentSucceeded now subId? db) := by
  unfold handleInvoicePaymentSucceeded
  cases subId? with
  | none => exact h
  | some subId =>
    dsimp only
    cases hf : findBillingBySub db subId with
    | none => exact h
    | some billing =>
      apply dbInv_updateBillingRow db billing.id _ h
      intro x _
      intro hc
      exact absurd (show ("active" : String) = "cancelled" from hc)
        (by decide)

theorem invoiceFailed_preserves_inv (subId? : Option String) (db : DB)
    (h : dbInv db) : dbInv (handleInvoicePaymentFailed subId? db) := by
  unfold handleInvoicePaymentFailed
  cases subId? with
  | none => exact h
  | some subId =>
    dsimp only
    cases hf : findBillingBySub db subId with
    | none => exact h
    | some billing =>
      apply dbInv_updateBillingRow db billing.id _ h
      intro x _
      intro hc
      exact absurd (show ("past_due" : String) = "cancelled" from hc)
        (by decide)

theorem cancelSub_preserves_inv (now : JSDate) (stripeOk : Bool) (uid : Nat)
    (db : DB) (h : dbInv db) :
    dbInv (cancelSubscription now stripeOk uid db).1 := by
  unfold cancelSubscription
  cases hf : findBillingByUser db uid with
  | none => exact h
  | some billing =>
    cases h1 : billing.status == "cancelled" with
    | true => simp only [h1, if_true]; exact h
    | false =>
      simp only [h1, Bool.false_eq_true, if_false]
      cases h2 : billing.stripeSubscriptionId.isSome && !stripeOk with
      | true => simp only [h2, if_true]; exact h
      | false =>
        simp only [h2, Bool.false_eq_true, if_false]
        apply dbInv_updateBillingByUser db uid _ h
        intro x _
        intro _
        simp

theorem reactivateSub_preserves_inv (stripeOk : Bool) (uid : Nat) (db : DB)
    (h : dbInv db) : dbInv (reactivateSubscription stripeOk uid db).1 := by
  unfold reactivateSubscription
  cases hf : findBillingByUser db uid with
  | none => exact h
  | some billing =>
    cases h1 : billing.status != "cancelled" with
    | true => simp only [h1, if_true]; exact h
    | false =>
      simp only [h1, Bool.false_eq_true, if_false]
      cases h2 : billing.stripeSubscriptionId.isSome && !stripeOk with
      | true => simp only [h2, if_true]; exact h
      | false =>
        simp only [h2, Bool.false_eq_true, if_false]
        apply dbInv_updateBillingByUser db uid _ h
        intro x _
        intro hc
        exact absurd (show ("active" : String) = "cancelled" from hc)
          (by decide)

/-- C9: every operation of the repository that creates or mutates a
Billing record — provisioning, the four subscription-state-synchronizer
handlers, and the user-initiated cancel / reactivate actions — preserves
the invariant that a `cancelled` Billing always carries a non-null
`cancelledAt`. -/
theorem billing_cancelled_invariant (op : BillingOp) (db : DB)
    (h : dbInv db) : dbInv (applyOp op db) := by
  cases op with
  | provision env sid s => exact provision_preserves_inv env sid s db h
  | subUpdated now sub => exact subUpdated_preserves_inv now sub db h
  | subDeleted now sub => exact subDeleted_preserves_inv now sub db h
  | invoicePaid now subId? => exact invoicePaid_preserves_inv now subId? db h
  | invoiceFailed subId? => exact invoiceFailed_preserves_inv subId? db h
  | cancel now stripeOk uid => exact cancelSub_preserves_inv now stripeOk uid db h
  | reactivate stripeOk uid => exact reactivateSub_preserves_inv stripeOk uid db h

/-- C9 witness: a cancel-at-period-end update applied to a database
satisfying the invariant (one active Billing with null `cancelledAt`)
yields a database still satisfying it. -/
theorem billing_cancelled_invariant_witness :
    dbInv (applyOp (.subUpdated ⟨2025, 2, 3⟩ ⟨"sub_w9", "active", true⟩)
      ⟨10, [], [], [], [],
        [⟨7, 3, 2, some "cus_w9", some "sub_w9", "monthly", some 4,
          some ⟨2025, 4, 4⟩, 0, none, none, 60, none, "gbp", "active",
          none⟩]⟩) :=
  billing_cancelled_invariant
    (.subUpdated ⟨2025, 2, 3⟩ ⟨"sub_w9", "active", true⟩)
    ⟨10, [], [], [], [],
      [⟨7, 3, 2, some "cus_w9", some "sub_w9", "monthly", some 4,
        some ⟨2025, 4, 4⟩, 0, none, none, 60, none, "gbp", "active",
        none⟩]⟩ (by decide)

/-! ## C3 — compensation idempotency -/

theorem findApp_update_pres (db : DB) (sid : String) (app : Application)
    (ha : findAppBySession db sid = some app) (f : Application → Application)
    (hf : ∀ a, (f a).stripeSessionId = a.stripeSessionId) :
    findAppBySession (updateApplicationRow db app.id f) sid =
      some (f app) := by
  have hpres : ∀ a : Application,
      ((if a.id = app.id then f a else a).stripeSessionId == some sid) =
        (a.stripeSessionId == some sid) := by
    intro a
    by_cases h : a.id = app.id
    · simp [h, hf]
    · simp [h]
  simp only [findAppBySession, updateApplicationRow]
  rw [find?_map_pres _ _ hpres db.applications]
  unfold findAppBySession at ha
  rw [ha]
  simp

theorem handleFailedCheckout_noop (refundOk : Bool) (s : StripeSession)
    (db : DB) (app : Application) (pi : String)
    (hpi : s.payment_intent = some pi)
    (ha : findAppBySession db s.id = some app)
    (hst : app.status = "refunded") :
    handleFailedCheckout refundOk s db = (db, 0) := by
  simp [handleFailedCheckout, hpi, ha, hst]

theorem compensateNTimes_noop (refundOk : Bool) (s : StripeSession)
    (db : DB) (app : Application) (pi : String)
    (hpi : s.payment_intent = some pi)
    (ha : findAppBySession db s.id = some app)
    (hst : app.status = "refunded") :
    ∀ n, compensateNTimes refundOk s n db = (db, 0) := by
  intro n
  induction n with
  | zero => rfl
  | succ n ih =>
    simp only [compensateNTimes,
      handleFailedCheckout_noop refundOk s db app pi hpi ha hst, ih]

/-- C3: the Compensation Handler is idempotent for a checkout session
whose payment was captured (a payment intent exists) and whose Application
is on record: when the Application is already `refunded` it makes no
refund call and leaves the database unchanged (and any number of repeats
still makes zero calls); otherwise it makes exactly one refund call and
marks the Application `refunded`, after which any number of further
invocations for the same session makes no additional call — so `n + 1`
sequential invocations issue exactly one refund in total. -/
theorem compensation_idempotent (s : StripeSession) (db : DB)
    (app : Application) (pi : String)
    (hpi : s.payment_intent = some pi)
    (ha : findAppBySession db s.id = some app) :
    (app.status = "refunded" →
      handleFailedCheckout true s db = (db, 0) ∧
      ∀ n, (compensateNTimes true s (n + 1) db).2 = 0) ∧
    (app.status ≠ "refunded" →
      (handleFailedCheckout true s db).2 = 1 ∧
      findAppBySession (handleFailedCheckout true s db).1 s.id =
        some { app with status := "refunded" } ∧
      ∀ n, (compensateNTimes true s (n + 1) db).2 = 1) := by
  constructor
  · intro hst
    refine ⟨handleFailedCheckout_noop true s db app pi hpi ha hst, ?_⟩
    intro n
    rw [compensateNTimes_noop true s db app pi hpi ha hst (n + 1)]
  · intro hne
    have hb : (app.status == "refunded") = false := by
      simp [hne]
    have hrun : handleFailedCheckout true s db =
        (updateApplicationRow db app.id
          (fun a => { a with status := "refunded" }), 1) := by
      simp [handleFailedCheckout, hpi, ha, hb]
    have hfind : findAppBySession (handleFailedCheckout true s db).1 s.id =
        some { app with status := "refunded" } := by
      rw [hrun]
      exact findApp_update_pres db s.id app ha _ (fun a => rfl)
    refine ⟨by rw [hrun], hfind, ?_⟩
    intro n
    have hrest := compensateNTimes_noop true s
      (updateApplicationRow db app.id
        (fun a => { a with status := "refunded" }))
      { app with status := "refunded" } pi hpi
      (findApp_update_pres db s.id app ha _ (fun a => rfl)) rfl n
    simp only [compensateNTimes, hrun, hrest]

/-- C3 witness: with a captured payment and a pending Application, three
sequential compensation attempts issue exactly one refund. -/
theorem compensation_idempotent_witness :
    (compensateNTimes true
      ⟨"cs_w3", some "cus_w3", some "sub_w3", some 8499, some "pi_w3"⟩ 3
      ⟨2, [], [⟨1, "w3@example.com", "Ada", "Lovelace", "about", "[]",
        false, "monthly", "pending", false, none, none, some "cs_w3",
        none⟩], [], [], []⟩).2 = 1 :=
  ((compensation_idempotent
    ⟨"cs_w3", some "cus_w3", some "sub_w3", some 8499, some "pi_w3"⟩
    ⟨2, [], [⟨1, "w3@example.com", "Ada", "Lovelace", "about", "[]",
      false, "monthly", "pending", false, none, none, some "cs_w3",
      none⟩], [], [], []⟩
    ⟨1, "w3@example.com", "Ada", "Lovelace", "about", "[]", false,
      "monthly", "pending", false, none, none, some "cs_w3", none⟩
    "pi_w3" rfl (by decide)).2 (by decide)).2.2 2

/-! ## C4 — email collision path -/

/-- C4: when the Application is unprocessed and a User with its email
already exists, `processPaymentAndCreateUser` creates no User, Profile or
Billing row (those tables are returned unchanged); it links the
Application to the existing User, marks it processed with status
`completed`, and returns the already-existed outcome, which carries no
temporary password. -/
theorem email_collision_links_existing_user (env : ProvisionEnv)
    (sid : String) (s : StripeSession) (db : DB) (app : Application)
    (u : User)
    (ha : findAppBySession db sid = some app)
    (hp : app.processed = false)
    (hu : findUserByEmail db app.email = some u) :
    processPaymentAndCreateUser env sid s db =
      (updateApplicationRow db app.id (fun a =>
        { a with userId := some u.id, processed := true,
                 processedAt := some env.now, status := "completed" }),
       .ok (userExistsOutcome u.id)) ∧
    (processPaymentAndCreateUser env sid s db).1.users = db.users ∧
    (processPaymentAndCreateUser env sid s db).1.profiles = db.profiles ∧
    (processPaymentAndCreateUser env sid s db).1.billings = db.billings ∧
    findAppBySession (processPaymentAndCreateUser env sid s db).1 sid =
      some { app with userId := some u.id, processed := true,
                      processedAt := some env.now, status := "completed" } ∧
    (userExistsOutcome u.id).tempPassword = none := by
  have hrun : processPaymentAndCreateUser env sid s db =
      (updateApplicationRow db app.id (fun a =>
        { a with userId := some u.id, processed := true,
                 processedAt := some env.now, status := "completed" }),
       .ok (userExistsOutcome u.id)) := by
    simp only [processPaymentAndCreateUser, processTxBody, ha, hp,
      Bool.false_eq_true, if_false, hu]
  refine ⟨hrun, ?_, ?_, ?_, ?_, rfl⟩
  · rw [hrun]; rfl
  · rw [hrun]; rfl
  · rw [hrun]; rfl
  · rw [hrun]
    exact findApp_update_pres db sid app ha _ (fun a => rfl)

/-- C4 witness: a checkout for an email that already has an account links
the Application and returns an outcome without credentials. -/
theorem email_collision_links_existing_user_witness :
    (processPaymentAndCreateUser
      ⟨⟨2025, 0, 10⟩, "tmpPw4", "hashPw4", noFaults⟩ "cs_w4"
      ⟨"cs_w4", some "cus_w4", some "sub_w4", some 8499, some "pi_w4"⟩
      ⟨3, [⟨0, "T", "D"⟩],
        [⟨1, "w4@example.com", "Ada", "Lovelace", "about", "[]", false,
          "monthly", "pending", false, none, none, some "cs_w4", none⟩],
        [⟨2, "w4@example.com", "oldHash", "email", 0⟩], [], []⟩).1.users =
      [⟨2, "w4@example.com", "oldHash", "email", 0⟩] :=
  (email_collision_links_existing_user
    ⟨⟨2025, 0, 10⟩, "tmpPw4", "hashPw4", noFaults⟩ "cs_w4"
    ⟨"cs_w4", some "cus_w4", some "sub_w4", some 8499, some "pi_w4"⟩
    ⟨3, [⟨0, "T", "D"⟩],
      [⟨1, "w4@example.com", "Ada", "Lovelace", "about", "[]", false,
        "monthly", "pending", false, none, none, some "cs_w4", none⟩],
      [⟨2, "w4@example.com", "oldHash", "email", 0⟩], [], []⟩
    ⟨1, "w4@example.com", "Ada", "Lovelace", "about", "[]", false,
      "monthly", "pending", false, none, none, some "cs_w4", none⟩
    ⟨2, "w4@example.com", "oldHash", "email", 0⟩
    (by decide) rfl (by decide)).2.1

/-! ## C1 — idempotency under redelivery -/

theorem process_processed (env : ProvisionEnv) (sid : String)
    (s : StripeSession) (db : DB) (app : Application)
    (ha : findAppBySession db sid = some app)
    (hp : app.processed = true) :
    processPaymentAndCreateUser env sid s db =
      (db, .ok (alreadyProcessedOutcome app.userId)) := by
  simp only [processPaymentAndCreateUser, processTxBody, ha, hp, if_true]

theorem processNTimes_fixed (env : ProvisionEnv) (sid : String)
    (s : StripeSession) (db : DB) (app : Application)
    (ha : findAppBySession db sid = some app)
    (hp : app.processed = true) :
    ∀ n, processNTimes env sid s n db =
      (db, List.replicate n (.ok (alreadyProcessedOutcome app.userId))) := by
  intro n
  induction n with
  | zero => rfl
  | succ n ih =>
    simp only [processNTimes, process_processed env sid s db app ha hp, ih,
      List.replicate_succ]

theorem process_fresh_run (env : ProvisionEnv) (sid : String)
    (s : StripeSession) (db : DB) (app : Application)
    (hfaults : env.faults = noFaults)
    (ha : findAppBySession db sid = some app)
    (hp : app.processed = false)
    (hu : findUserByEmail db app.email = none) :
    ∃ uid,
      db.nextId ≤ uid ∧
      (processPaymentAndCreateUser env sid s db).2 =
        .ok (freshOutcome uid app.email env.tempPassword app.firstName
          app.lastName) ∧
      (processPaymentAndCreateUser env sid s db).1.users.countP
          (fun x => x.email == app.email) =
        db.users.countP (fun x => x.email == app.email) + 1 ∧
      (processPaymentAndCreateUser env sid s db).1.profiles.countP
          (fun x => x.userId == uid) =
        db.profiles.countP (fun x => x.userId == uid) + 1 ∧
      (processPaymentAndCreateUser env sid s db).1.billings.countP
          (fun x => x.applicationId == app.id) =
        db.billings.countP (fun x => x.applicationId == app.id) + 1 ∧
      findAppBySession (processPaymentAndCreateUser env sid s db).1 sid =
        some { app with userId := some uid, processed := true,
                        processedAt := some env.now, status := "completed",
                        tempPassword := some env.hashedPassword } := by
  obtain ⟨nid, tens, apps, us, ps, bs⟩ := db
  cases tens with
  | nil =>
    refine ⟨nid + 1, by simp, ?_, ?_, ?_, ?_, ?_⟩
    · simp only [processPaymentAndCreateUser, processTxBody, ha, hp,
        Bool.false_eq_true, if_false, hu, hfaults, noFaults,
        getDefaultTenant]
    · simp only [processPaymentAndCreateUser, processTxBody, ha, hp,
        Bool.false_eq_true, if_false, hu, hfaults, noFaults,
        getDefaultTenant]
      simp [updateApplicationRow, List.countP_append, List.countP_cons]
    · simp only [processPaymentAndCreateUser, processTxBody, ha, hp,
        Bool.false_eq_true, if_false, hu, hfaults, noFaults,
        getDefaultTenant]
      simp [updateApplicationRow, List.countP_append, List.countP_cons]
    · simp only [processPaymentAndCreateUser, processTxBody, ha, hp,
        Bool.false_eq_true, if_false, hu, hfaults, noFaults,
        getDefaultTenant]
      simp [updateApplicationRow, List.countP_append, List.countP_cons]
    · simp only [processPaymentAndCreateUser, processTxBody, ha, hp,
        Bool.false_eq_true, if_false, hu, hfaults, noFaults,
        getDefaultTenant]
      exact findApp_update_pres _ sid app ha _ (fun a => rfl)
  | cons t ts =>
    refine ⟨nid, le_refl nid, ?_, ?_, ?_, ?_, ?_⟩
    · simp only [processPaymentAndCreateUser, processTxBody, ha, hp,
        Bool.false_eq_true, if_false, hu, hfaults, noFaults,
        getDefaultTenant]
    · simp only [processPaymentAndCreateUser, processTxBody, ha, hp,
        Bool.false_eq_true, if_false, hu, hfaults, noFaults,
        getDefaultTenant]
      simp [updateApplicationRow, List.countP_append, List.countP_cons]
    · simp only [processPaymentAndCreateUser, processTxBody, ha, hp,
        Bool.false_eq_true, if_false, hu, hfaults, noFaults,
        getDefaultTenant]
      simp [updateApplicationRow, List.countP_append, List.countP_cons]
    · simp only [processPaymentAndCreateUser, processTxBody, ha, hp,
        Bool.false_eq_true, if_false, hu, hfaults, noFaults,
        getDefaultTenant]
      simp [updateApplicationRow, List.countP_append, List.countP_cons]
    · simp only [processPaymentAndCreateUser, processTxBody, ha, hp,
        Bool.false_eq_true, if_false, hu, hfaults, noFaults,
        getDefaultTenant]
      exact findApp_update_pres _ sid app ha _ (fun a => rfl)

/-- C1: delivering the same `checkout_completed` event `1 + n` times for
an unprocessed Application with a fresh email provisions exactly one
User / Profile / Billing triple on the first call, and each of the `n`
repeated calls — the Application now being marked processed — is a no-op:
the database is unchanged and every repeat returns the same recorded
already-processed outcome (success, the linked user id, no
credentials). -/
theorem provisioning_idempotent_redelivery (env : ProvisionEnv)
    (sid : String) (s : StripeSession) (db : DB) (app : Application)
    (hfaults : env.faults = noFaults)
    (ha : findAppBySession db sid = some app)
    (hp : app.processed = false)
    (hu : findUserByEmail db app.email = none)
    (hb0 : db.billings.countP (fun x => x.applicationId == app.id) = 0)
    (hpr : ∀ p ∈ db.profiles, p.userId < db.nextId) :
    ∃ uid db1,
      processPaymentAndCreateUser env sid s db =
        (db1, .ok (freshOutcome uid app.email env.tempPassword
          app.firstName app.lastName)) ∧
      db1.users.countP (fun x => x.email == app.email) = 1 ∧
      db1.profiles.countP (fun x => x.userId == uid) = 1 ∧
      db1.billings.countP (fun x => x.applicationId == app.id) = 1 ∧
      ∀ n, processNTimes env sid s n db1 =
        (db1, List.replicate n
          (.ok (alreadyProcessedOutcome (some uid)))) := by
  obtain ⟨uid, hle, hA, hB, hC, hD, hE⟩ :=
    process_fresh_run env sid s db app hfaults ha hp hu
  refine ⟨uid, (processPaymentAndCreateUser env sid s db).1,
    ?_, ?_, ?_, ?_, ?_⟩
  · have hpair : processPaymentAndCreateUser env sid s db =
        ((processPaymentAndCreateUser env sid s db).1,
         (processPaymentAndCreateUser env sid s db).2) := rfl
    rw [hpair, hA]
  · have h0 : db.users.countP (fun x => x.email == app.email) = 0 := by
      rw [List.countP_eq_zero]
      intro a hain
      exact List.find?_eq_none.mp hu a hain
    rw [hB, h0]
  · have h0 : db.profiles.countP (fun x => x.userId == uid) = 0 := by
      rw [List.countP_eq_zero]
      intro a hain
      have hlt := hpr a hain
      intro hc
      rw [beq_iff_eq] at hc
      omega
    rw [hC, h0]
  · rw [hD, hb0]
  · intro n
    exact processNTimes_fixed env sid s _ _ hE rfl n

/-- C1 witness: a concrete unprocessed application with a fresh email;
one delivery provisions the triple and `n` further deliveries are no-ops
with the recorded outcome. -/
theorem provisioning_idempotent_redelivery_witness :
    ∃ uid db1,
      processPaymentAndCreateUser
        ⟨⟨2025, 0, 10⟩, "tmpPw0", "hashPw0", noFaults⟩ "cs_w1"
        ⟨"cs_w1", some "cus_w1", some "sub_w1", some 8499, some "pi_w1"⟩
        ⟨2, [⟨0, "T", "D"⟩],
          [⟨1, "w1@example.com", "Ada", "Lovelace", "about", "[]", false,
            "monthly", "pending", false, none, none, some "cs_w1", none⟩],
          [], [], []⟩ =
        (db1, .ok (freshOutcome uid "w1@example.com" "tmpPw0" "Ada"
          "Lovelace")) ∧
      db1.users.countP (fun x => x.email == "w1@example.com") = 1 ∧
      db1.profiles.countP (fun x => x.userId == uid) = 1 ∧
      db1.billings.countP (fun x => x.applicationId == 1) = 1 ∧
      ∀ n, processNTimes
        ⟨⟨2025, 0, 10⟩, "tmpPw0", "hashPw0", noFaults⟩ "cs_w1"
        ⟨"cs_w1", some "cus_w1", some "sub_w1", some 8499, some "pi_w1"⟩
        n db1 =
        (db1, List.replicate n
          (.ok (alreadyProcessedOutcome (some uid)))) :=
  provisioning_idempotent_redelivery
    ⟨⟨2025, 0, 10⟩, "tmpPw0", "hashPw0", noFaults⟩ "cs_w1"
    ⟨"cs_w1", some "cus_w1", some "sub_w1", some 8499, some "pi_w1"⟩
    ⟨2, [⟨0, "T", "D"⟩],
      [⟨1, "w1@example.com", "Ada", "Lovelace", "about", "[]", false,
        "monthly", "pending", false, none, none, some "cs_w1", none⟩],
      [], [], []⟩
    ⟨1, "w1@example.com", "Ada", "Lovelace", "about", "[]", false,
      "monthly", "pending", false, none, none, some "cs_w1", none⟩
    rfl (by decide) rfl rfl (by decide) (by simp)

end ModelWeb
